import Mathlib

/-!
Verification development for the win_rate backtesting repository.

Shallow embedding of the algorithmic core:
* `analyze_scoring_history_v3.py` — deterministic seed derivation
  (`get_signal_seed`), entry-price model (`get_entry_price`), and the
  SL/TP trade simulation (`calculate_trade_result`) with its seeded
  simultaneous-hit tie-break;
* `optimization/utils/simulation_engine.py` — the SL/TS/graduated-timeout
  state machine (`simulate_trade`, `_check_timeout_exit`, `simulate_batch`);
* `optimization/utils/position_tracker.py` and
  `optimization/simulate_trades.py` — the overlap filter.

Python floats are modelled as exact rationals (`ℚ`); epoch timestamps as
integers.  Fallible code returns `Option`.
-/

namespace WinRate

/-! ## SHA-256 (model of Python's `hashlib.sha256`, per FIPS 180-4)

`get_signal_seed` calls the external `hashlib` library; the hash itself is
modelled here byte-exactly so that the seed derivation is a concrete,
executable function of the signal id. Bytes and 32-bit words are `ℕ`
reduced mod 2^32 where the source wraps. -/

/-- Truncate to a 32-bit word. -/
def w32 (n : ℕ) : ℕ := n % 4294967296

/-- Right-rotation of a 32-bit word. -/
def rotr (x n : ℕ) : ℕ := w32 ((x >>> n) ||| (x <<< (32 - n)))

/-- 32-bit bitwise complement. -/
def wnot (x : ℕ) : ℕ := Nat.xor x 4294967295

/-- SHA-256 round constants. -/
def shaK : List ℕ :=
  [1116352408, 1899447441, 3049323471, 3921009573, 961987163,
   1508970993, 2453635748, 2870763221, 3624381080, 310598401,
   607225278, 1426881987, 1925078388, 2162078206, 2614888103,
   3248222580, 3835390401, 4022224774, 264347078, 604807628,
   770255983, 1249150122, 1555081692, 1996064986, 2554220882,
   2821834349, 2952996808, 3210313671, 3336571891, 3584528711,
   113926993, 338241895, 666307205, 773529912, 1294757372,
   1396182291, 1695183700, 1986661051, 2177026350, 2456956037,
   2730485921, 2820302411, 3259730800, 3345764771, 3516065817,
   3600352804, 4094571909, 275423344, 430227734, 506948616,
   659060556, 883997877, 958139571, 1322822218, 1537002063,
   1747873779, 1955562222, 2024104815, 2227730452, 2361852424,
   2428436474, 2756734187, 3204031479, 3329325298]

/-- SHA-256 initial hash state. -/
def shaH0 : List ℕ :=
  [1779033703, 3144134277, 1013904242, 2773480762, 1359893119,
   2600822924, 528734635, 1541459225]

/-- Big-endian byte encoding of `n` on `k` bytes. -/
def natToBE : ℕ → ℕ → List ℕ
  | 0, _ => []
  | k + 1, n => natToBE k (n / 256) ++ [n % 256]

/-- Big-endian interpretation of a byte list (Python's
`int.from_bytes(·, byteorder='big')`). -/
def bytesToNatBE (l : List ℕ) : ℕ := l.foldl (fun acc b => acc * 256 + b) 0

/-- SHA-256 message padding: append `0x80`, zero bytes to 56 mod 64, then
the 64-bit big-endian bit length. -/
def shaPad (msg : List ℕ) : List ℕ :=
  let len := msg.length
  let zeros := (64 + 56 - ((len + 1) % 64)) % 64
  msg ++ [0x80] ++ List.replicate zeros 0 ++ natToBE 8 (8 * len)

/-- Group bytes into big-endian 32-bit words. -/
def toWords : List ℕ → List ℕ
  | b0 :: b1 :: b2 :: b3 :: rest => (((b0 * 256 + b1) * 256 + b2) * 256 + b3) :: toWords rest
  | _ => []

/-- Message-schedule extension: append `fuel` further words to `ws`. -/
def shaExtend : ℕ → List ℕ → List ℕ
  | 0, ws => ws
  | n + 1, ws =>
    let i := ws.length
    let w15 := ws.getD (i - 15) 0
    let w2 := ws.getD (i - 2) 0
    let s0 := Nat.xor (Nat.xor (rotr w15 7) (rotr w15 18)) (w15 >>> 3)
    let s1 := Nat.xor (Nat.xor (rotr w2 17) (rotr w2 19)) (w2 >>> 10)
    shaExtend n (ws ++ [w32 (ws.getD (i - 16) 0 + s0 + ws.getD (i - 7) 0 + s1)])

/-- One SHA-256 round: state is the word list `[a,b,c,d,e,f,g,h]`. -/
def shaRound (st : List ℕ) (kw : ℕ × ℕ) : List ℕ :=
  match st with
  | [a, b, c, d, e, f, g, h] =>
    let S1 := Nat.xor (Nat.xor (rotr e 6) (rotr e 11)) (rotr e 25)
    let ch := Nat.xor ((e &&& f)) ((wnot e) &&& g)
    let temp1 := w32 (h + S1 + ch + kw.1 + kw.2)
    let S0 := Nat.xor (Nat.xor (rotr a 2) (rotr a 13)) (rotr a 22)
    let maj := Nat.xor (Nat.xor (a &&& b) (a &&& c)) (b &&& c)
    let temp2 := w32 (S0 + maj)
    [w32 (temp1 + temp2), a, b, c, w32 (d + temp1), e, f, g]
  | other => other

/-- Compress one 64-byte block into the running hash state. -/
def shaBlock (hs : List ℕ) (block : List ℕ) : List ℕ :=
  let ws := shaExtend 48 (toWords block)
  let st := (shaK.zip ws).foldl shaRound hs
  (hs.zip st).map (fun p => w32 (p.1 + p.2))

/-- Fold the compression over all 64-byte blocks (`fuel` bounds the number
of blocks; called with the padded length, which suffices). -/
def shaBlocks : ℕ → List ℕ → List ℕ → List ℕ
  | 0, hs, _ => hs
  | _, hs, [] => hs
  | n + 1, hs, l => shaBlocks n (shaBlock hs (l.take 64)) (l.drop 64)

/-- SHA-256 digest (32 bytes) of a byte list. -/
def sha256 (msg : List ℕ) : List ℕ :=
  let padded := shaPad msg
  ((shaBlocks padded.length shaH0 padded).map (natToBE 4)).flatten

/-- UTF-8 bytes of a string (all strings hashed here are ASCII, where the
code points are the bytes). -/
def strBytes (s : String) : List ℕ := s.data.map Char.toNat

/-- `AnalyzerV3.get_signal_seed` (analyze_scoring_history_v3.py:239-268):
seed = first 8 bytes of SHA-256 of `"scoring_history_id_" ++ id`,
big-endian, reduced mod 2^32. -/
def get_signal_seed (scoring_history_id : ℕ) : ℕ :=
  let seed_string := "scoring_history_id_" ++ toString scoring_history_id
  let hash_bytes := sha256 (strBytes seed_string)
  (bytesToNatBE (hash_bytes.take 8)) % 4294967296

/-! ## Simulation engine (`optimization/utils/simulation_engine.py`)

`SimulationEngine.simulate_trade` walks 1-minute candles in order, checking
stop-loss, trailing-stop, then the graduated timeout on each candle.
Prices are `ℚ`; `open_time` is an integer epoch. The per-candle body is
`stepCandle`; `minutes_held = idx + 1` as in the source. -/

/-- Trade direction (`signal_type` string in the source: anything other
than `'LONG'` takes the SHORT branch). -/
inductive Dir
  | LONG
  | SHORT
deriving DecidableEq, Repr

/-- One candle row as consumed by the engine. -/
structure Candle where
  open_time : ℤ
  open_price : ℚ
  high_price : ℚ
  low_price : ℚ
  close_price : ℚ
deriving DecidableEq, Repr

/-- `exit_type` strings produced by the engine. -/
inductive ExitType
  | SL
  | TS
  | TIMEOUT_BREAKEVEN
  | TIMEOUT_21H
  | TIMEOUT_22H
  | TIMEOUT_23H
  | TIMEOUT_24H
  | ERROR
deriving DecidableEq, Repr

/-- Result dict of `simulate_trade` (`exit_price`/`exit_time` are `None`
only in `_empty_result`). -/
structure TradeExit where
  exit_type : ExitType
  exit_price : Option ℚ
  exit_time : Option ℤ
  pnl_pct : ℚ
  max_profit_pct : ℚ
  max_drawdown_pct : ℚ
  hold_duration_minutes : ℕ
deriving DecidableEq, Repr

/-- `SimulationEngine._empty_result` (simulation_engine.py:272-282). -/
def empty_result : TradeExit := ⟨.ERROR, none, none, 0, 0, 0, 0⟩

/-- `high_pnl` of a candle (simulation_engine.py:61-68): favourable
intra-candle excursion, in percent of entry. -/
def high_pnl_of (signal_type : Dir) (entry_price : ℚ) (c : Candle) : ℚ :=
  match signal_type with
  | .LONG => (c.high_price - entry_price) / entry_price * 100
  | .SHORT => (entry_price - c.low_price) / entry_price * 100

/-- `low_pnl` of a candle (simulation_engine.py:61-68): adverse
intra-candle excursion, in percent of entry. -/
def low_pnl_of (signal_type : Dir) (entry_price : ℚ) (c : Candle) : ℚ :=
  match signal_type with
  | .LONG => (c.low_price - entry_price) / entry_price * 100
  | .SHORT => (entry_price - c.high_price) / entry_price * 100

/-- `close_pnl` of a candle: P&L at the candle close, used by the timeout
checks (simulation_engine.py:193-197). -/
def close_pnl_of (signal_type : Dir) (entry_price : ℚ) (c : Candle) : ℚ :=
  match signal_type with
  | .LONG => (c.close_price - entry_price) / entry_price * 100
  | .SHORT => (entry_price - c.close_price) / entry_price * 100

/-- SL exit price (simulation_engine.py:76). -/
def sl_exit_price (signal_type : Dir) (entry_price sl_pct : ℚ) : ℚ :=
  match signal_type with
  | .LONG => entry_price * (1 - sl_pct/100)
  | .SHORT => entry_price * (1 + sl_pct/100)

/-- Initial trailing trigger on activation:
`entry * (1 ± (activation - callback)/100)` (simulation_engine.py:90-94). -/
def ts_initial_trigger (signal_type : Dir) (entry_price ts_activation_pct ts_callback_pct : ℚ) : ℚ :=
  match signal_type with
  | .LONG => entry_price * (1 + (ts_activation_pct - ts_callback_pct)/100)
  | .SHORT => entry_price * (1 - (ts_activation_pct - ts_callback_pct)/100)

/-- Whether the candle crosses an armed trigger: low for LONG, high for
SHORT (simulation_engine.py:102,120). -/
def ts_cross (signal_type : Dir) (trigger : ℚ) (c : Candle) : Prop :=
  match signal_type with
  | .LONG => c.low_price ≤ trigger
  | .SHORT => c.high_price ≥ trigger

instance (d : Dir) (t : ℚ) (c : Candle) : Decidable (ts_cross d t c) := by
  unfold ts_cross; cases d <;> infer_instance

/-- Realized P&L of a trailing-stop exit at `trigger`
(simulation_engine.py:103,121). -/
def ts_exit_pnl (signal_type : Dir) (entry_price trigger : ℚ) : ℚ :=
  match signal_type with
  | .LONG => (trigger - entry_price) / entry_price * 100
  | .SHORT => (entry_price - trigger) / entry_price * 100

/-- `new_trigger` candidate from this candle's extreme
(simulation_engine.py:115,133). -/
def ts_new_trigger (signal_type : Dir) (ts_callback_pct : ℚ) (c : Candle) : ℚ :=
  match signal_type with
  | .LONG => c.high_price * (1 - ts_callback_pct/100)
  | .SHORT => c.low_price * (1 + ts_callback_pct/100)

/-- Trail update: `max` of old and new trigger for LONG, `min` for SHORT
(simulation_engine.py:116,134). -/
def ts_tighten (signal_type : Dir) (trigger new_trigger : ℚ) : ℚ :=
  match signal_type with
  | .LONG => max trigger new_trigger
  | .SHORT => min trigger new_trigger

/-- "`t'` is at least as tight toward profit as `t`": `≥` for LONG, `≤`
for SHORT. -/
def ts_tighter (signal_type : Dir) (t t' : ℚ) : Prop :=
  match signal_type with
  | .LONG => t ≤ t'
  | .SHORT => t' ≤ t

/-- Forced-step exit price: `entry * (1 ∓ loss/100)` — the source writes
`entry_price * (1 - 0.01)` etc. for LONG and `(1 + 0.01)` for SHORT
(simulation_engine.py:217,231,245). -/
def timeout_step_price (signal_type : Dir) (entry_price loss_pct : ℚ) : ℚ :=
  match signal_type with
  | .LONG => entry_price * (1 - loss_pct/100)
  | .SHORT => entry_price * (1 + loss_pct/100)

/-- `SimulationEngine._check_timeout_exit` (simulation_engine.py:152-270).
The source receives `(candles, current_idx)` and only reads
`candles[current_idx]`; here that candle is passed directly, with
`minutes_held = current_idx + 1` precomputed as in the source. -/
def check_timeout_exit (entry_price : ℚ) (signal_type : Dir) (minutes_held : ℕ)
    (current_candle : Candle) (max_profit max_drawdown : ℚ) : Option TradeExit :=
  if minutes_held < 1200 then none
  else
    let current_price := current_candle.close_price
    let open_time := current_candle.open_time
    let current_pnl := close_pnl_of signal_type entry_price current_candle
    if minutes_held < 1260 then
      if current_pnl > 0 then
        some ⟨.TIMEOUT_BREAKEVEN, some entry_price, some open_time, 0,
              max_profit, max_drawdown, minutes_held⟩
      else none
    else if minutes_held = 1260 then
      some ⟨.TIMEOUT_21H, some (timeout_step_price signal_type entry_price 1),
            some open_time, -1, max_profit, max_drawdown, minutes_held⟩
    else if minutes_held = 1320 then
      some ⟨.TIMEOUT_22H, some (timeout_step_price signal_type entry_price 2),
            some open_time, -2, max_profit, max_drawdown, minutes_held⟩
    else if minutes_held = 1380 then
      some ⟨.TIMEOUT_23H, some (timeout_step_price signal_type entry_price 3),
            some open_time, -3, max_profit, max_drawdown, minutes_held⟩
    else if 1440 ≤ minutes_held then
      some ⟨.TIMEOUT_24H, some current_price, some open_time, current_pnl,
            max_profit, max_drawdown, minutes_held⟩
    else none

/-- Mutable loop state of `simulate_trade`: `ts_trigger_price = some t`
exactly when `ts_activated` is true in the source (the source never reads
the trigger while unarmed). -/
structure SimState where
  max_profit : ℚ
  max_drawdown : ℚ
  ts_trigger_price : Option ℚ
deriving DecidableEq, Repr

/-- Body of the per-candle loop of `simulate_trade`
(simulation_engine.py:54-143): SL check, TS activation, TS trigger check
and trail update, then the graduated timeout check.  Returns either the
exit (`.inl`) or the state carried to the next candle (`.inr`). -/
def stepCandle (signal_type : Dir) (sl_pct ts_activation_pct ts_callback_pct entry_price : ℚ)
    (minutes_held : ℕ) (st : SimState) (candle : Candle) : TradeExit ⊕ SimState :=
  let open_time := candle.open_time
  let high_pnl := high_pnl_of signal_type entry_price candle
  let low_pnl := low_pnl_of signal_type entry_price candle
  let max_profit := max st.max_profit high_pnl
  let max_drawdown := min st.max_drawdown low_pnl
  if low_pnl ≤ -sl_pct then
    .inl ⟨.SL, some (sl_exit_price signal_type entry_price sl_pct),
          some open_time, -sl_pct, max_profit, max_drawdown, minutes_held⟩
  else
    let ts_armed : Option ℚ :=
      if st.ts_trigger_price = none ∧ high_pnl ≥ ts_activation_pct then
        some (ts_initial_trigger signal_type entry_price ts_activation_pct ts_callback_pct)
      else st.ts_trigger_price
    let afterTS : TradeExit ⊕ SimState :=
      match ts_armed with
      | none => .inr ⟨max_profit, max_drawdown, none⟩
      | some t =>
        if ts_cross signal_type t candle then
          .inl ⟨.TS, some t, some open_time, ts_exit_pnl signal_type entry_price t,
                max_profit, max_drawdown, minutes_held⟩
        else
          .inr ⟨max_profit, max_drawdown,
                some (ts_tighten signal_type t (ts_new_trigger signal_type ts_callback_pct candle))⟩
    match afterTS with
    | .inl r => .inl r
    | .inr st' =>
      match check_timeout_exit entry_price signal_type minutes_held candle
              max_profit max_drawdown with
      | some r => .inl r
      | none => .inr st'

/-- The `for idx, candle in enumerate(candles)` loop of `simulate_trade`;
`n` is the index of the first candle in the remaining list. -/
def simLoop (signal_type : Dir) (sl_pct ts_activation_pct ts_callback_pct entry_price : ℚ) :
    ℕ → SimState → List Candle → TradeExit ⊕ SimState
  | _, st, [] => .inr st
  | n, st, c :: rest =>
    match stepCandle signal_type sl_pct ts_activation_pct ts_callback_pct entry_price
            (n + 1) st c with
    | .inl r => .inl r
    | .inr st' =>
      simLoop signal_type sl_pct ts_activation_pct ts_callback_pct entry_price (n + 1) st' rest

/-- `SimulationEngine.simulate_trade` (simulation_engine.py:20-150).
Returns `none` exactly when the Python function returns `None` (the
fall-through after the loop when `_check_timeout_exit` yields `None`). -/
def simulate_trade (candles : List Candle) (signal_type : Dir)
    (sl_pct ts_activation_pct ts_callback_pct : ℚ) : Option TradeExit :=
  match candles with
  | [] => some empty_result
  | c0 :: _ =>
    let entry_price := c0.open_price
    match simLoop signal_type sl_pct ts_activation_pct ts_callback_pct entry_price
            0 ⟨0, 0, none⟩ candles with
    | .inl r => some r
    | .inr st =>
      match candles.getLast? with
      | some clast =>
        check_timeout_exit entry_price signal_type candles.length clast
          st.max_profit st.max_drawdown
      | none => none

/-- One row of `simulate_batch`'s output (the source spreads the
`simulate_trade` dict into the row; it is kept nested here). -/
structure BatchRow where
  signal_id : ℕ
  sl_pct : ℚ
  ts_activation_pct : ℚ
  ts_callback_pct : ℚ
  result : TradeExit
deriving DecidableEq, Repr

/-- `SimulationEngine.simulate_batch` (simulation_engine.py:284-327): one
`simulate_trade` call per `(sl, ts_act, ts_cb)` combination; a `None`
simulation result is skipped (`continue`). -/
def simulate_batch (signal_id : ℕ) (signal_type : Dir) (candles : List Candle) :
    List (ℚ × ℚ × ℚ) → List BatchRow
  | [] => []
  | (sl, ts_act, ts_cb) :: rest =>
    match simulate_trade candles signal_type sl ts_act ts_cb with
    | none => simulate_batch signal_id signal_type candles rest
    | some r => ⟨signal_id, sl, ts_act, ts_cb, r⟩ :: simulate_batch signal_id signal_type candles rest

/-- A flat candle at price 100: triggers neither SL nor TS. -/
def flatCandle : Candle := ⟨0, 100, 100, 100, 100⟩

/-! ## v3 analyzer (`analyze_scoring_history_v3.py`)

`calculate_trade_result` closes a position at fixed TP/SL levels; when
both levels fall inside one candle it uses a coin flip drawn from a PRNG
seeded with `get_signal_seed`.  The PRNG is modelled as a function
`coin : ℕ → Bool` mapping the seed to the first `random.choice([True,
False])` draw after `random.seed(seed)` — the only draw the function ever
makes, since the tie-break runs at most once per call. -/

/-- Analyzer configuration (`AnalysisConfig` fields used by the core). -/
structure V3Config where
  tp_percent : ℚ
  sl_percent : ℚ
  position_size : ℚ
  leverage : ℚ
  analysis_hours : ℚ
deriving DecidableEq, Repr

/-- A 5-minute history row (`timestamp` in epoch seconds). -/
structure HCandle where
  timestamp : ℚ
  close_price : ℚ
  high_price : ℚ
  low_price : ℚ
deriving DecidableEq, Repr

/-- `close_reason` values of a completed simulation. -/
inductive CloseReason
  | stop_loss
  | take_profit
  | timeout
deriving DecidableEq, Repr

/-- The close-fields block (`close_reason`, `is_win`, `close_price`,
`close_time`, `hours_to_close`), set together when `is_closed` flips. -/
structure CloseInfo where
  close_reason : CloseReason
  is_win : Option Bool
  close_price : ℚ
  close_time : ℚ
  hours_to_close : ℚ
deriving DecidableEq, Repr

/-- Loop state of `calculate_trade_result`: `closeInfo = some _` exactly
when `is_closed` is true in the source. -/
structure CalcState where
  absolute_max_price : ℚ
  absolute_min_price : ℚ
  time_to_max : ℚ
  time_to_min : ℚ
  closeInfo : Option CloseInfo
  running_best_price : ℚ
  max_drawdown_from_peak : ℚ
deriving DecidableEq, Repr

/-- TP level (analyze_scoring_history_v3.py:437-442). -/
def v3_tp_price (direction : Dir) (entry_price tp_percent : ℚ) : ℚ :=
  match direction with
  | .LONG => entry_price * (1 + tp_percent / 100)
  | .SHORT => entry_price * (1 - tp_percent / 100)

/-- SL level (analyze_scoring_history_v3.py:437-442). -/
def v3_sl_price (direction : Dir) (entry_price sl_percent : ℚ) : ℚ :=
  match direction with
  | .LONG => entry_price * (1 - sl_percent / 100)
  | .SHORT => entry_price * (1 + sl_percent / 100)

/-- `sl_hit` condition inside the candle loop. -/
def v3_sl_hit (direction : Dir) (sl_price : ℚ) (candle : HCandle) : Prop :=
  match direction with
  | .LONG => candle.low_price ≤ sl_price
  | .SHORT => candle.high_price ≥ sl_price

/-- `tp_hit` condition inside the candle loop. -/
def v3_tp_hit (direction : Dir) (tp_price : ℚ) (candle : HCandle) : Prop :=
  match direction with
  | .LONG => candle.high_price ≥ tp_price
  | .SHORT => candle.low_price ≤ tp_price

instance (d : Dir) (p : ℚ) (c : HCandle) : Decidable (v3_sl_hit d p c) := by
  unfold v3_sl_hit; cases d <;> infer_instance

instance (d : Dir) (p : ℚ) (c : HCandle) : Decidable (v3_tp_hit d p c) := by
  unfold v3_tp_hit; cases d <;> infer_instance

/-- The close check of the candle loop
(analyze_scoring_history_v3.py:479-553): nothing once closed; otherwise
both-hit takes the `hit_sl_first` tie-break, a single hit closes at that
level, and no hit leaves the position open. -/
def v3_close_update (hit_sl_first : Bool) (direction : Dir) (tp_price sl_price : ℚ)
    (current_time hours_passed : ℚ) (prev : Option CloseInfo) (candle : HCandle) :
    Option CloseInfo :=
  let slClose : CloseInfo := ⟨.stop_loss, some false, sl_price, current_time, hours_passed⟩
  let tpClose : CloseInfo := ⟨.take_profit, some true, tp_price, current_time, hours_passed⟩
  match prev with
  | some ci => some ci
  | none =>
    if v3_sl_hit direction sl_price candle ∧ v3_tp_hit direction tp_price candle then
      some (if hit_sl_first then slClose else tpClose)
    else if v3_sl_hit direction sl_price candle then some slClose
    else if v3_tp_hit direction tp_price candle then some tpClose
    else none

/-- `running_best_price` update (analyze_scoring_history_v3.py:556-557,
565-567): new high for LONG, new low for SHORT. -/
def v3_peak_update (direction : Dir) (running_best_price : ℚ) (candle : HCandle) : ℚ :=
  match direction with
  | .LONG =>
    if candle.high_price > running_best_price then candle.high_price else running_best_price
  | .SHORT =>
    if candle.low_price < running_best_price then candle.low_price else running_best_price

/-- `max_drawdown_from_peak` update (analyze_scoring_history_v3.py:
560-573), fed the already-updated running best; guarded against a
non-positive peak. -/
def v3_drawdown_update (direction : Dir) (running_best_price max_drawdown_from_peak : ℚ)
    (candle : HCandle) : ℚ :=
  if 0 < running_best_price then
    let current_drawdown :=
      match direction with
      | .LONG => (running_best_price - candle.low_price) / running_best_price * 100
      | .SHORT => (candle.high_price - running_best_price) / running_best_price * 100
    if current_drawdown > max_drawdown_from_peak then current_drawdown
    else max_drawdown_from_peak
  else max_drawdown_from_peak

/-- Body of the `for i, candle in enumerate(history)` loop of
`calculate_trade_result` (analyze_scoring_history_v3.py:463-573):
absolute-extreme tracking, the close check with the `hit_sl_first`
tie-break, then the running-peak drawdown update. -/
def calcStep (hit_sl_first : Bool) (direction : Dir) (actual_entry_time : ℚ)
    (tp_price sl_price : ℚ) (st : CalcState) (candle : HCandle) : CalcState :=
  let current_time := candle.timestamp
  let hours_passed := (current_time - actual_entry_time) / 3600
  let high_price := candle.high_price
  let low_price := candle.low_price
  let st1 :=
    if high_price > st.absolute_max_price then
      { st with absolute_max_price := high_price, time_to_max := hours_passed }
    else st
  let st2 :=
    if low_price < st1.absolute_min_price then
      { st1 with absolute_min_price := low_price, time_to_min := hours_passed }
    else st1
  let st3 :=
    { st2 with closeInfo := (v3_close_update hit_sl_first direction tp_price sl_price
        current_time hours_passed st2.closeInfo candle) }
  let running_best := v3_peak_update direction st3.running_best_price candle
  { st3 with running_best_price := running_best,
             max_drawdown_from_peak :=
               (v3_drawdown_update direction running_best st3.max_drawdown_from_peak candle) }

/-- Final row produced by `calculate_trade_result`. -/
structure TradeResult where
  direction : Dir
  entry_price : ℚ
  best_price : ℚ
  worst_price : ℚ
  close_price : ℚ
  is_closed : Bool
  close_reason : CloseReason
  is_win : Option Bool
  close_time : ℚ
  hours_to_close : ℚ
  pnl_percent : ℚ
  pnl_usd : ℚ
  max_potential_profit_percent : ℚ
  max_potential_profit_usd : ℚ
  max_drawdown_percent : ℚ
  max_drawdown_usd : ℚ
  absolute_max_price : ℚ
  absolute_min_price : ℚ
  time_to_max_hours : ℚ
  time_to_min_hours : ℚ
deriving DecidableEq, Repr

/-- `AnalyzerV3.calculate_trade_result`
(analyze_scoring_history_v3.py:408-634).  `coin` abstracts the seeded
PRNG (see section header); everything else follows the source: initial
extremes at `entry_price`, the candle loop, the timeout fallback at the
last candle's close, and the final financial fields. -/
def calculate_trade_result (coin : ℕ → Bool) (config : V3Config) (direction : Dir)
    (entry_price : ℚ) (history : List HCandle) (actual_entry_time : ℚ)
    (scoring_history_id : ℕ) : TradeResult :=
  let signal_seed := get_signal_seed scoring_history_id
  let hit_sl_first := coin signal_seed
  let tp_price := v3_tp_price direction entry_price config.tp_percent
  let sl_price := v3_sl_price direction entry_price config.sl_percent
  let init : CalcState := ⟨entry_price, entry_price, 0, 0, none, entry_price, 0⟩
  let st := history.foldl
    (calcStep hit_sl_first direction actual_entry_time tp_price sl_price) init
  let ci : CloseInfo :=
    match st.closeInfo with
    | some ci => ci
    | none =>
      let lastC := history.getLastD ⟨0, 0, 0, 0⟩
      ⟨.timeout, none, lastC.close_price, lastC.timestamp, config.analysis_hours⟩
  let final_pnl_percent :=
    match direction with
    | .LONG => (ci.close_price - entry_price) / entry_price * 100
    | .SHORT => (entry_price - ci.close_price) / entry_price * 100
  let max_potential_profit_percent :=
    match direction with
    | .LONG => (st.absolute_max_price - entry_price) / entry_price * 100
    | .SHORT => (entry_price - st.absolute_min_price) / entry_price * 100
  { direction := direction
    entry_price := entry_price
    best_price := match direction with
      | .LONG => st.absolute_max_price
      | .SHORT => st.absolute_min_price
    worst_price := match direction with
      | .LONG => st.absolute_min_price
      | .SHORT => st.absolute_max_price
    close_price := ci.close_price
    is_closed := true
    close_reason := ci.close_reason
    is_win := ci.is_win
    close_time := ci.close_time
    hours_to_close := ci.hours_to_close
    pnl_percent := final_pnl_percent
    pnl_usd := config.position_size * config.leverage * (final_pnl_percent / 100)
    max_potential_profit_percent := max_potential_profit_percent
    max_potential_profit_usd :=
      config.position_size * config.leverage * (max_potential_profit_percent / 100)
    max_drawdown_percent := st.max_drawdown_from_peak
    max_drawdown_usd :=
      config.position_size * config.leverage * (st.max_drawdown_from_peak / 100)
    absolute_max_price := st.absolute_max_price
    absolute_min_price := st.absolute_min_price
    time_to_max_hours := st.time_to_max
    time_to_min_hours := st.time_to_min }

/-- Bar validation and fill computation of `AnalyzerV3.get_entry_price`
(analyze_scoring_history_v3.py:329-406), applied to the fetched bar's
`high_price`/`low_price` (the bar fetch itself is external I/O; a missing
bar is also `None` in the source). -/
def get_entry_price (high_price low_price : ℚ) (direction : Dir) : Option ℚ :=
  if high_price ≤ 0 ∨ low_price ≤ 0 then none
  else if high_price < low_price then none
  else
    let spread_percent := (high_price - low_price) / low_price
    if spread_percent > 1/2 then none
    else
      match direction with
      | .LONG => some (low_price + (high_price - low_price) * (3/4))
      | .SHORT => some (low_price + (high_price - low_price) * (1/4))

/-- Sentinel reasons of `create_no_data_result`. -/
inductive NoDataReason
  | no_entry_price
  | insufficient_history
deriving DecidableEq, Repr

/-- `AnalyzerV3.create_no_data_result` (analyze_scoring_history_v3.py:
636-671), restricted to the simulation-relevant fields (the source also
echoes signal metadata and config values — I/O plumbing). -/
structure NoDataResult where
  signal_type : Dir
  entry_price : Option ℚ
  close_price : Option ℚ
  is_closed : Bool
  close_reason : NoDataReason
  pnl_percent : ℚ
deriving DecidableEq, Repr

/-- Sentinel row for a signal that cannot be simulated. -/
def create_no_data_result (direction : Dir) (reason : NoDataReason) : NoDataResult :=
  ⟨direction, none, none, false, reason, 0⟩

/-- Either a sentinel or a simulated result. -/
abbrev V3Outcome := NoDataResult ⊕ TradeResult

/-- Decision core of `AnalyzerV3.analyze_signal_both_directions`
(analyze_scoring_history_v3.py:673-765): given the two entry fills of
`get_entry_price` (as `(entry_price, entry_time)`, `none` when rejected)
and the fetched history, produce exactly one outcome per direction —
sentinels when an entry price is missing or when
`len(history) < int(analysis_hours * 12 * 0.75)`. -/
def analyze_signal_both_directions (coin : ℕ → Bool) (config : V3Config)
    (entry_data_long entry_data_short : Option (ℚ × ℚ))
    (history : List HCandle) (scoring_history_id : ℕ) : V3Outcome × V3Outcome :=
  match entry_data_long, entry_data_short with
  | some (entry_price_long, entry_time_long), some (entry_price_short, entry_time_short) =>
    let min_candles : ℤ := (config.analysis_hours * 12 * (3/4)).floor
    if history.length = 0 ∨ (history.length : ℤ) < min_candles then
      (.inl (create_no_data_result .LONG .insufficient_history),
       .inl (create_no_data_result .SHORT .insufficient_history))
    else
      (.inr (calculate_trade_result coin config .LONG entry_price_long history
               entry_time_long scoring_history_id),
       .inr (calculate_trade_result coin config .SHORT entry_price_short history
               entry_time_short scoring_history_id))
  | _, _ =>
    (.inl (create_no_data_result .LONG .no_entry_price),
     .inl (create_no_data_result .SHORT .no_entry_price))

/-! ## Overlap filter (`position_tracker.py`, `simulate_trades.py`)

Entry times are modelled in integer minutes; the fixed holding horizon
`timedelta(hours=24)` is 1440 minutes. -/

/-- A candidate signal row as consumed by `filter_duplicate_signals`. -/
structure Signal where
  pair_symbol : String
  entry_time : ℤ
deriving DecidableEq, Repr

/-- Lookup in the `active_positions` dict (first binding wins; updates
cons a fresh binding, which shadows the old one exactly like a dict
assignment does for lookups). -/
def lookupExit : List (String × ℤ) → String → Option ℤ
  | [], _ => none
  | (k, v) :: rest, sym => if k = sym then some v else lookupExit rest sym

/-- `PositionTracker.is_position_active` (position_tracker.py:22-46). -/
def is_position_active (active_positions : List (String × ℤ)) (pair_symbol : String)
    (entry_time : ℤ) : Bool :=
  match lookupExit active_positions pair_symbol with
  | none => false
  | some existing_exit => entry_time < existing_exit

/-- Fixed holding horizon: `entry_time + timedelta(hours=24)`, in minutes. -/
def fixed_horizon : ℤ := 1440

/-- The accept/reject scan of `filter_duplicate_signals`
(simulate_trades.py:101-112): reject (and count) when a position is
active for the pair, else accept and track `entry + 24h`
(`PositionTracker.add_position` with `exit_time=None`,
position_tracker.py:48-74). -/
def filterLoop : List (String × ℤ) → List Signal → List Signal
  | _, [] => []
  | active, s :: rest =>
    if is_position_active active s.pair_symbol s.entry_time then
      filterLoop active rest
    else
      s :: filterLoop ((s.pair_symbol, s.entry_time + fixed_horizon) :: active) rest

/-- `filter_duplicate_signals` (simulate_trades.py:74-121): sort by entry
time, then scan. -/
def filter_duplicate_signals (signals : List Signal) : List Signal :=
  filterLoop [] (signals.mergeSort (fun a b => decide (a.entry_time ≤ b.entry_time)))

/-! ## Helper lemmas -/

example : sha256 (strBytes "abc") =
    [0xba, 0x78, 0x16, 0xbf, 0x8f, 0x01, 0xcf, 0xea, 0x41, 0x41, 0x40, 0xde,
     0x5d, 0xae, 0x22, 0x23, 0xb0, 0x03, 0x61, 0xa3, 0x96, 0x17, 0x7a, 0x9c,
     0xb4, 0x10, 0xff, 0x61, 0xf2, 0x00, 0x15, 0xad] := by decide

example : get_signal_seed 1 = 1980475674 := by decide

example : get_signal_seed 12345 = 2094857841 := by decide

example : get_entry_price 104 100 .LONG = some 103 := by
  norm_num [get_entry_price]

/-- Field-wise characterisation of one `calcStep`. -/
lemma calcStep_fields (hit_sl_first : Bool) (direction : Dir) (actual_entry_time : ℚ)
    (tp_price sl_price : ℚ) (st : CalcState) (candle : HCandle) :
    (calcStep hit_sl_first direction actual_entry_time tp_price sl_price st candle).closeInfo =
      v3_close_update hit_sl_first direction tp_price sl_price candle.timestamp
        ((candle.timestamp - actual_entry_time) / 3600) st.closeInfo candle ∧
    (calcStep hit_sl_first direction actual_entry_time tp_price sl_price st candle).running_best_price =
      v3_peak_update direction st.running_best_price candle ∧
    (calcStep hit_sl_first direction actual_entry_time tp_price sl_price st candle).max_drawdown_from_peak =
      v3_drawdown_update direction (v3_peak_update direction st.running_best_price candle)
        st.max_drawdown_from_peak candle ∧
    (calcStep hit_sl_first direction actual_entry_time tp_price sl_price st candle).absolute_min_price =
      (if candle.low_price < st.absolute_min_price then candle.low_price
       else st.absolute_min_price) ∧
    (calcStep hit_sl_first direction actual_entry_time tp_price sl_price st candle).absolute_max_price =
      (if candle.high_price > st.absolute_max_price then candle.high_price
       else st.absolute_max_price) := by
  simp only [calcStep]
  split_ifs <;> simp_all

/-- A closed position stays closed with the same close info through the
rest of the candle loop. -/
lemma foldl_closeInfo_some (hit_sl_first : Bool) (direction : Dir)
    (actual_entry_time tp_price sl_price : ℚ) (l : List HCandle) :
    ∀ (st : CalcState) (ci : CloseInfo), st.closeInfo = some ci →
      (l.foldl (calcStep hit_sl_first direction actual_entry_time tp_price sl_price)
        st).closeInfo = some ci := by
  induction l with
  | nil => intro st ci h; simpa using h
  | cons c rest ih =>
    intro st ci h
    rw [List.foldl_cons]
    refine ih _ ci ?_
    rw [(calcStep_fields hit_sl_first direction actual_entry_time tp_price sl_price st c).1, h]
    rfl

/-- Over candles that hit neither level the position stays open. -/
lemma foldl_closeInfo_none (hit_sl_first : Bool) (direction : Dir)
    (actual_entry_time tp_price sl_price : ℚ) (l : List HCandle)
    (hl : ∀ c ∈ l, ¬ v3_sl_hit direction sl_price c ∧ ¬ v3_tp_hit direction tp_price c) :
    ∀ st : CalcState, st.closeInfo = none →
      (l.foldl (calcStep hit_sl_first direction actual_entry_time tp_price sl_price)
        st).closeInfo = none := by
  induction l with
  | nil => intro st h; simpa using h
  | cons c rest ih =>
    intro st h
    rw [List.foldl_cons]
    refine ih (fun c' hc' => hl c' (List.mem_cons_of_mem _ hc')) _ ?_
    rw [(calcStep_fields hit_sl_first direction actual_entry_time tp_price sl_price st c).1, h]
    have hc := hl c (List.mem_cons_self _ _)
    simp [v3_close_update, hc.1, hc.2]

/-- `is_position_active` is false exactly when every tracked exit for the
pair is at or before the proposed entry. -/
lemma is_position_active_false_iff (active : List (String × ℤ)) (sym : String) (e : ℤ) :
    is_position_active active sym e = false ↔
      ∀ ex, lookupExit active sym = some ex → ex ≤ e := by
  unfold is_position_active
  cases h : lookupExit active sym with
  | none => simp
  | some ex => simp [not_lt]

/-- If a pair is tracked with exit `t`, every signal for that pair accepted
later by the scan enters no earlier than `t`. -/
lemma filterLoop_lookup_le (l : List Signal) :
    ∀ (active : List (String × ℤ)) (sym : String) (t : ℤ),
      lookupExit active sym = some t →
      ∀ b ∈ filterLoop active l, b.pair_symbol = sym → t ≤ b.entry_time := by
  induction l with
  | nil =>
    intro active sym t _ b hb
    simp [filterLoop] at hb
  | cons s rest ih =>
    intro active sym t hlk b hb hsym
    rw [filterLoop] at hb
    by_cases hact : is_position_active active s.pair_symbol s.entry_time = true
    · rw [if_pos hact] at hb
      exact ih active sym t hlk b hb hsym
    · rw [if_neg hact] at hb
      have haccept : ∀ ex, lookupExit active s.pair_symbol = some ex → ex ≤ s.entry_time :=
        (is_position_active_false_iff active s.pair_symbol s.entry_time).mp
          (Bool.not_eq_true _ ▸ hact)
      rcases List.mem_cons.mp hb with rfl | hb'
      · exact haccept t (hsym ▸ hlk)
      · by_cases hps : s.pair_symbol = sym
        · have hlk2 : lookupExit ((s.pair_symbol, s.entry_time + fixed_horizon) :: active) sym
              = some (s.entry_time + fixed_horizon) := by
            simp [lookupExit, hps]
          have h1 := ih _ sym _ hlk2 b hb' hsym
          have h2 := haccept t (by rw [hps]; exact hlk)
          have hH : (0:ℤ) ≤ fixed_horizon := by norm_num [fixed_horizon]
          omega
        · have hlk2 : lookupExit ((s.pair_symbol, s.entry_time + fixed_horizon) :: active) sym
              = some t := by
            simp [lookupExit, hps, hlk]
          exact ih _ sym t hlk2 b hb' hsym

/-- The scan's output has pairwise-separated windows per pair symbol. -/
lemma filterLoop_pairwise (l : List Signal) :
    ∀ active, (filterLoop active l).Pairwise
      (fun a b => a.pair_symbol = b.pair_symbol →
        a.entry_time + fixed_horizon ≤ b.entry_time) := by
  induction l with
  | nil => intro active; simp [filterLoop]
  | cons s rest ih =>
    intro active
    rw [filterLoop]
    by_cases hact : is_position_active active s.pair_symbol s.entry_time = true
    · rw [if_pos hact]
      exact ih active
    · rw [if_neg hact]
      refine List.Pairwise.cons ?_ (ih _)
      intro b hb hsym
      have hlk2 : lookupExit ((s.pair_symbol, s.entry_time + fixed_horizon) :: active)
          s.pair_symbol = some (s.entry_time + fixed_horizon) := by
        simp [lookupExit]
      exact filterLoop_lookup_le rest _ s.pair_symbol _ hlk2 b hb hsym.symm

/-! ## Claims -/

/-- Claim C6: the overlap filter accepts a signal iff every tracked exit for
its pair is `≤` its entry time (no tracked position counting as
acceptance); the accepted signals of any pair have pairwise
non-overlapping `[entry, entry + 1440)` windows; and a 20:00 signal
(minute 1200) is rejected after a 10:00 signal (minute 600) of the same
pair was accepted. -/
theorem C6_overlap_invariant (signals : List Signal) :
    (filter_duplicate_signals signals).Pairwise
      (fun a b => a.pair_symbol = b.pair_symbol →
        a.entry_time + fixed_horizon ≤ b.entry_time) ∧
    (∀ (active : List (String × ℤ)) (sym : String) (e : ℤ),
      is_position_active active sym e = false ↔
        ∀ ex, lookupExit active sym = some ex → ex ≤ e) ∧
    filter_duplicate_signals [⟨"BTCUSDT", 600⟩, ⟨"BTCUSDT", 1200⟩] =
      [⟨"BTCUSDT", 600⟩] := by
  refine ⟨?_, is_position_active_false_iff, ?_⟩
  · unfold filter_duplicate_signals
    exact filterLoop_pairwise _ _
  · rw [filter_duplicate_signals, List.mergeSort_of_sorted (by decide)]
    decide

/-- Witness for C6: the 10:00 / 20:00 example. -/
theorem C6_overlap_invariant_witness :
    filter_duplicate_signals [⟨"BTCUSDT", 600⟩, ⟨"BTCUSDT", 1200⟩] =
      [⟨"BTCUSDT", 600⟩] :=
  (C6_overlap_invariant []).2.2

/-- A timeout exit is never tagged `'TS'` or `'SL'`. -/
lemma check_timeout_exit_type (entry_price : ℚ) (signal_type : Dir) (minutes_held : ℕ)
    (c : Candle) (mp md : ℚ) (r : TradeExit)
    (h : check_timeout_exit entry_price signal_type minutes_held c mp md = some r) :
    r.exit_type ≠ .TS ∧ r.exit_type ≠ .SL := by
  simp only [check_timeout_exit] at h
  split_ifs at h <;> simp_all <;> subst h <;> simp

/-- Claim C7: trailing-stop behaviour of the per-candle step of
`simulate_trade`.  Writing `trig₀` for the initial trigger
`entry ± (activation − callback)` and `mp'`/`md'` for the updated
excursion stats: (arming) when unarmed and the candle's run-up reaches
the activation, the candle is immediately checked against `trig₀`,
exiting `'TS'` at exactly `trig₀` if the candle crosses it, else arming
with `trig₀` tightened by this candle's extreme; (exit) an armed trigger
crossed by the candle's low (LONG) / high (SHORT) exits `'TS'` at exactly
the current trigger; (tightening) on a no-exit candle an armed trigger
moves only toward profit (`max` for LONG, `min` for SHORT); (soundness)
without a crossing no `'TS'` exit occurs; (inertness) without the
activation run-up the step stays unarmed. -/
theorem C7_trailing_stop (signal_type : Dir)
    (sl_pct ts_activation_pct ts_callback_pct entry_price : ℚ) (minutes_held : ℕ)
    (st : SimState) (c : Candle) :
    (st.ts_trigger_price = none →
      ¬(low_pnl_of signal_type entry_price c ≤ -sl_pct) →
      high_pnl_of signal_type entry_price c ≥ ts_activation_pct →
      ts_cross signal_type
        (ts_initial_trigger signal_type entry_price ts_activation_pct ts_callback_pct) c →
      stepCandle signal_type sl_pct ts_activation_pct ts_callback_pct entry_price
          minutes_held st c =
        .inl ⟨.TS,
          some (ts_initial_trigger signal_type entry_price ts_activation_pct ts_callback_pct),
          some c.open_time,
          ts_exit_pnl signal_type entry_price
            (ts_initial_trigger signal_type entry_price ts_activation_pct ts_callback_pct),
          max st.max_profit (high_pnl_of signal_type entry_price c),
          min st.max_drawdown (low_pnl_of signal_type entry_price c), minutes_held⟩) ∧
    (st.ts_trigger_price = none →
      ¬(low_pnl_of signal_type entry_price c ≤ -sl_pct) →
      high_pnl_of signal_type entry_price c ≥ ts_activation_pct →
      ¬ ts_cross signal_type
        (ts_initial_trigger signal_type entry_price ts_activation_pct ts_callback_pct) c →
      check_timeout_exit entry_price signal_type minutes_held c
        (max st.max_profit (high_pnl_of signal_type entry_price c))
        (min st.max_drawdown (low_pnl_of signal_type entry_price c)) = none →
      stepCandle signal_type sl_pct ts_activation_pct ts_callback_pct entry_price
          minutes_held st c =
        .inr ⟨max st.max_profit (high_pnl_of signal_type entry_price c),
              min st.max_drawdown (low_pnl_of signal_type entry_price c),
              some (ts_tighten signal_type
                (ts_initial_trigger signal_type entry_price ts_activation_pct ts_callback_pct)
                (ts_new_trigger signal_type ts_callback_pct c))⟩) ∧
    (∀ t : ℚ, st.ts_trigger_price = some t →
      ¬(low_pnl_of signal_type entry_price c ≤ -sl_pct) →
      ts_cross signal_type t c →
      stepCandle signal_type sl_pct ts_activation_pct ts_callback_pct entry_price
          minutes_held st c =
        .inl ⟨.TS, some t, some c.open_time, ts_exit_pnl signal_type entry_price t,
          max st.max_profit (high_pnl_of signal_type entry_price c),
          min st.max_drawdown (low_pnl_of signal_type entry_price c), minutes_held⟩) ∧
    (∀ t : ℚ, st.ts_trigger_price = some t →
      ¬(low_pnl_of signal_type entry_price c ≤ -sl_pct) →
      ¬ ts_cross signal_type t c →
      check_timeout_exit entry_price signal_type minutes_held c
        (max st.max_profit (high_pnl_of signal_type entry_price c))
        (min st.max_drawdown (low_pnl_of signal_type entry_price c)) = none →
      stepCandle signal_type sl_pct ts_activation_pct ts_callback_pct entry_price
          minutes_held st c =
        .inr ⟨max st.max_profit (high_pnl_of signal_type entry_price c),
              min st.max_drawdown (low_pnl_of signal_type entry_price c),
              some (ts_tighten signal_type t (ts_new_trigger signal_type ts_callback_pct c))⟩ ∧
      ts_tighter signal_type t
        (ts_tighten signal_type t (ts_new_trigger signal_type ts_callback_pct c))) ∧
    (∀ (t : ℚ) (r : TradeExit), st.ts_trigger_price = some t →
      ¬ ts_cross signal_type t c →
      stepCandle signal_type sl_pct ts_activation_pct ts_callback_pct entry_price
          minutes_held st c = .inl r →
      r.exit_type ≠ .TS) ∧
    (st.ts_trigger_price = none →
      ¬(high_pnl_of signal_type entry_price c ≥ ts_activation_pct) →
      ¬(low_pnl_of signal_type entry_price c ≤ -sl_pct) →
      check_timeout_exit entry_price signal_type minutes_held c
        (max st.max_profit (high_pnl_of signal_type entry_price c))
        (min st.max_drawdown (low_pnl_of signal_type entry_price c)) = none →
      stepCandle signal_type sl_pct ts_activation_pct ts_callback_pct entry_price
          minutes_held st c =
        .inr ⟨max st.max_profit (high_pnl_of signal_type entry_price c),
              min st.max_drawdown (low_pnl_of signal_type entry_price c), none⟩) := by
  refine ⟨?_, ?_, ?_, ?_, ?_, ?_⟩
  · intro hn hnsl hact hcross
    simp only [stepCandle]
    rw [if_neg hnsl, if_pos ⟨hn, hact⟩]
    simp only []
    rw [if_pos hcross]
  · intro hn hnsl hact hncross hto
    simp only [stepCandle]
    rw [if_neg hnsl, if_pos ⟨hn, hact⟩]
    simp only []
    rw [if_neg hncross]
    simp only []
    rw [hto]
  · intro t harmed hnsl hcross
    simp only [stepCandle]
    rw [if_neg hnsl,
      if_neg (fun hc : _ ∧ _ => by rw [harmed] at hc; exact Option.noConfusion hc.1),
      harmed]
    simp only []
    rw [if_pos hcross]
  · intro t harmed hnsl hncross hto
    constructor
    · simp only [stepCandle]
      rw [if_neg hnsl,
        if_neg (fun hc : _ ∧ _ => by rw [harmed] at hc; exact Option.noConfusion hc.1),
        harmed]
      simp only []
      rw [if_neg hncross]
      simp only []
      rw [hto]
    · cases signal_type
      · simp [ts_tighter, ts_tighten]
      · simp [ts_tighter, ts_tighten]
  · intro t r harmed hncross heq
    simp only [stepCandle] at heq
    by_cases hsl : low_pnl_of signal_type entry_price c ≤ -sl_pct
    · rw [if_pos hsl] at heq
      cases heq
      simp
    · rw [if_neg hsl,
        if_neg (fun hc : _ ∧ _ => by rw [harmed] at hc; exact Option.noConfusion hc.1),
        harmed] at heq
      simp only [] at heq
      rw [if_neg hncross] at heq
      simp only [] at heq
      cases hto : check_timeout_exit entry_price signal_type minutes_held c
          (max st.max_profit (high_pnl_of signal_type entry_price c))
          (min st.max_drawdown (low_pnl_of signal_type entry_price c)) with
      | none => rw [hto] at heq; exact absurd heq (by simp)
      | some r' =>
        rw [hto] at heq
        simp only [Sum.inl.injEq] at heq
        subst heq
        exact (check_timeout_exit_type _ _ _ _ _ _ _ hto).1
  · intro hn hnact hnsl hto
    simp only [stepCandle]
    rw [if_neg hnsl, if_neg (fun hc : _ ∧ _ => hnact hc.2), hn]
    simp only []
    rw [hto]

/-- Witness for C7: armed trigger at 102, crossed by the candle low. -/
theorem C7_trailing_stop_witness :
    stepCandle .LONG 5 2 (1/2) 100 10 ⟨0, 0, some 102⟩ ⟨5, 100, 103, 101, 102⟩ =
      .inl ⟨.TS, some 102, some 5, ts_exit_pnl .LONG 100 102,
        max 0 (high_pnl_of .LONG 100 ⟨5, 100, 103, 101, 102⟩),
        min 0 (low_pnl_of .LONG 100 ⟨5, 100, 103, 101, 102⟩), 10⟩ :=
  (C7_trailing_stop .LONG 5 2 (1/2) 100 10 ⟨0, 0, some 102⟩ ⟨5, 100, 103, 101, 102⟩).2.2.1
    102 rfl (by norm_num [low_pnl_of]) (by norm_num [ts_cross])

/-- Claim C5: on every valid entry bar (`0 < low ≤ high`, spread
`(high-low)/low ≤ 1/2`), `get_entry_price` returns the direction-biased
fill `low + 0.75*(high-low)` for LONG and `low + 0.25*(high-low)` for
SHORT; every bar with `high ≤ 0`, `low ≤ 0`, `high < low`, or spread
`> 1/2` is rejected (`none`). -/
theorem C5_entry_price_model (high_price low_price : ℚ) (direction : Dir) :
    (0 < low_price → low_price ≤ high_price →
      (high_price - low_price) / low_price ≤ 1/2 →
      get_entry_price high_price low_price direction =
        some (match direction with
              | .LONG => low_price + (high_price - low_price) * (3/4)
              | .SHORT => low_price + (high_price - low_price) * (1/4))) ∧
    ((high_price ≤ 0 ∨ low_price ≤ 0 ∨ high_price < low_price ∨
        (high_price - low_price) / low_price > 1/2) →
      get_entry_price high_price low_price direction = none) := by
  constructor
  · intro h1 h2 h3
    have hv : ¬(high_price ≤ 0 ∨ low_price ≤ 0) := by
      push_neg
      exact ⟨by linarith, h1⟩
    simp only [get_entry_price]
    rw [if_neg hv, if_neg (not_lt.mpr h2), if_neg (not_lt.mpr h3)]
    cases direction <;> rfl
  · intro h
    simp only [get_entry_price]
    split_ifs with hv hlt hsp
    · rfl
    · rfl
    · rfl
    · exfalso
      push_neg at hv
      rcases h with h | h | h | h
      · linarith [hv.1]
      · linarith [hv.2]
      · exact hlt h
      · exact hsp h

/-- Witness for C5 at concrete valid bars. -/
theorem C5_entry_price_model_witness :
    get_entry_price 104 100 .LONG = some (100 + (104 - 100) * (3/4)) ∧
    get_entry_price 104 100 .SHORT = some (100 + (104 - 100) * (1/4)) :=
  ⟨(C5_entry_price_model 104 100 .LONG).1 (by norm_num) (by norm_num) (by norm_num),
   (C5_entry_price_model 104 100 .SHORT).1 (by norm_num) (by norm_num) (by norm_num)⟩

/-- Claim C2: the graduated timeout for a position that has not exited yet:
no action below 1200 minutes; between 1200 and 1259 minutes a breakeven
exit (`exit_price = entry`, `pnl = 0`, `TIMEOUT_BREAKEVEN`) exactly when
the candle close is profitable, and no action when it is not (so the exit
fires on the first profitable close in that window); forced exits at
−1%/−2%/−3% at exactly 1260/1320/1380 minutes; market exit at the candle
close with its market P&L from 1440 minutes on. -/
theorem C2_graduated_timeout (entry_price : ℚ) (signal_type : Dir) (minutes_held : ℕ)
    (c : Candle) (mp md : ℚ) :
    (minutes_held < 1200 →
      check_timeout_exit entry_price signal_type minutes_held c mp md = none) ∧
    (1200 ≤ minutes_held → minutes_held < 1260 →
      0 < close_pnl_of signal_type entry_price c →
      check_timeout_exit entry_price signal_type minutes_held c mp md =
        some ⟨.TIMEOUT_BREAKEVEN, some entry_price, some c.open_time, 0,
              mp, md, minutes_held⟩) ∧
    (1200 ≤ minutes_held → minutes_held < 1260 →
      close_pnl_of signal_type entry_price c ≤ 0 →
      check_timeout_exit entry_price signal_type minutes_held c mp md = none) ∧
    (minutes_held = 1260 →
      check_timeout_exit entry_price signal_type minutes_held c mp md =
        some ⟨.TIMEOUT_21H, some (timeout_step_price signal_type entry_price 1),
              some c.open_time, -1, mp, md, minutes_held⟩) ∧
    (minutes_held = 1320 →
      check_timeout_exit entry_price signal_type minutes_held c mp md =
        some ⟨.TIMEOUT_22H, some (timeout_step_price signal_type entry_price 2),
              some c.open_time, -2, mp, md, minutes_held⟩) ∧
    (minutes_held = 1380 →
      check_timeout_exit entry_price signal_type minutes_held c mp md =
        some ⟨.TIMEOUT_23H, some (timeout_step_price signal_type entry_price 3),
              some c.open_time, -3, mp, md, minutes_held⟩) ∧
    (1440 ≤ minutes_held →
      check_timeout_exit entry_price signal_type minutes_held c mp md =
        some ⟨.TIMEOUT_24H, some c.close_price, some c.open_time,
              close_pnl_of signal_type entry_price c, mp, md, minutes_held⟩) := by
  refine ⟨fun h => ?_, fun h1 h2 h3 => ?_, fun h1 h2 h3 => ?_, fun h => ?_,
    fun h => ?_, fun h => ?_, fun h => ?_⟩
  · simp only [check_timeout_exit]
    rw [if_pos h]
  · simp only [check_timeout_exit]
    rw [if_neg (by omega), if_pos h2, if_pos h3]
  · simp only [check_timeout_exit]
    rw [if_neg (by omega), if_pos h2, if_neg (not_lt.mpr h3)]
  · simp only [check_timeout_exit]
    rw [if_neg (by omega), if_neg (by omega), if_pos h]
  · simp only [check_timeout_exit]
    rw [if_neg (by omega), if_neg (by omega), if_neg (by omega), if_pos h]
  · simp only [check_timeout_exit]
    rw [if_neg (by omega), if_neg (by omega), if_neg (by omega), if_neg (by omega),
      if_pos h]
  · simp only [check_timeout_exit]
    rw [if_neg (by omega), if_neg (by omega), if_neg (by omega), if_neg (by omega),
      if_neg (by omega), if_pos h]

/-- Witness for C2: breakeven at minute 1230 on a profitable close, no
action at minute 1100, forced −1% at minute 1260. -/
theorem C2_graduated_timeout_witness :
    check_timeout_exit 100 .LONG 1230 ⟨9, 100, 102, 99, 101⟩ 2 (-1) =
      some ⟨.TIMEOUT_BREAKEVEN, some 100, some 9, 0, 2, -1, 1230⟩ ∧
    check_timeout_exit 100 .LONG 1100 ⟨9, 100, 102, 99, 101⟩ 2 (-1) = none ∧
    check_timeout_exit 100 .LONG 1260 ⟨9, 100, 102, 99, 101⟩ 2 (-1) =
      some ⟨.TIMEOUT_21H, some (timeout_step_price .LONG 100 1), some 9, -1, 2, -1, 1260⟩ :=
  ⟨(C2_graduated_timeout 100 .LONG 1230 ⟨9, 100, 102, 99, 101⟩ 2 (-1)).2.1
      (by norm_num) (by norm_num) (by norm_num [close_pnl_of]),
   (C2_graduated_timeout 100 .LONG 1100 ⟨9, 100, 102, 99, 101⟩ 2 (-1)).1 (by norm_num),
   (C2_graduated_timeout 100 .LONG 1260 ⟨9, 100, 102, 99, 101⟩ 2 (-1)).2.2.2.1 rfl⟩

/-- Claim C4: determinism of `calculate_trade_result` per signal id: the
tie-break coin is consumed only at seed `get_signal_seed id`, which equals
the first 8 bytes (big-endian) of SHA-256 of
`"scoring_history_id_" ++ id` reduced mod 2^32 — a pure function of the
id, below 2^32 — so two invocations whose PRNG draw agrees at that seed
return identical `TradeResult` values. -/
theorem C4_seed_determinism (coin1 coin2 : ℕ → Bool) (config : V3Config)
    (direction : Dir) (entry_price : ℚ) (history : List HCandle)
    (actual_entry_time : ℚ) (id : ℕ)
    (h : coin1 (get_signal_seed id) = coin2 (get_signal_seed id)) :
    calculate_trade_result coin1 config direction entry_price history actual_entry_time id =
      calculate_trade_result coin2 config direction entry_price history actual_entry_time id ∧
    get_signal_seed id =
      bytesToNatBE ((sha256 (strBytes ("scoring_history_id_" ++ toString id))).take 8)
        % 2 ^ 32 ∧
    get_signal_seed id < 2 ^ 32 := by
  have hdef : get_signal_seed id =
      bytesToNatBE ((sha256 (strBytes ("scoring_history_id_" ++ toString id))).take 8)
        % 4294967296 := rfl
  have h32 : (4294967296 : ℕ) = 2 ^ 32 := by norm_num
  refine ⟨?_, by rw [hdef, h32], ?_⟩
  · simp only [calculate_trade_result]
    rw [h]
  · rw [hdef, h32]
    exact Nat.mod_lt _ (by norm_num)

/-- Witness for C4 at signal id 1. -/
theorem C4_seed_determinism_witness :
    calculate_trade_result (fun _ => true) ⟨3, 3, 100, 10, 48⟩ .LONG 100
        [⟨300, 100, 101, 99⟩] 0 1 =
      calculate_trade_result (fun _ => true) ⟨3, 3, 100, 10, 48⟩ .LONG 100
        [⟨300, 100, 101, 99⟩] 0 1 ∧
    get_signal_seed 1 =
      bytesToNatBE ((sha256 (strBytes ("scoring_history_id_" ++ toString 1))).take 8)
        % 2 ^ 32 ∧
    get_signal_seed 1 < 2 ^ 32 :=
  C4_seed_determinism (fun _ => true) (fun _ => true) ⟨3, 3, 100, 10, 48⟩ .LONG 100
    [⟨300, 100, 101, 99⟩] 0 1 rfl

/-- Claim C10: within one candle the stop-loss check strictly precedes the
trailing-stop check: when the stop level is breached
(`low_pnl ≤ -sl_pct`), the step exits `'SL'` at the stop price even though
the armed trigger is crossed in the same candle; no randomized tie-break
exists in this engine (the step is a pure function of its arguments). -/
theorem C10_sl_before_ts (signal_type : Dir)
    (sl_pct ts_activation_pct ts_callback_pct entry_price : ℚ) (minutes_held : ℕ)
    (st : SimState) (c : Candle) (t : ℚ)
    (_harmed : st.ts_trigger_price = some t)
    (_hcross : ts_cross signal_type t c)
    (hsl : low_pnl_of signal_type entry_price c ≤ -sl_pct) :
    stepCandle signal_type sl_pct ts_activation_pct ts_callback_pct entry_price
        minutes_held st c =
      .inl ⟨.SL, some (sl_exit_price signal_type entry_price sl_pct), some c.open_time,
            -sl_pct, max st.max_profit (high_pnl_of signal_type entry_price c),
            min st.max_drawdown (low_pnl_of signal_type entry_price c), minutes_held⟩ := by
  simp only [stepCandle]
  rw [if_pos hsl]

/-- Witness for C10: SL and armed trigger both crossed in one candle. -/
theorem C10_sl_before_ts_witness :
    stepCandle .LONG 5 1 (1/2) 100 10 ⟨0, 0, some 101⟩ ⟨77, 100, 102, 94, 95⟩ =
      .inl ⟨.SL, some (sl_exit_price .LONG 100 5), some 77, -5,
            max 0 (high_pnl_of .LONG 100 ⟨77, 100, 102, 94, 95⟩),
            min 0 (low_pnl_of .LONG 100 ⟨77, 100, 102, 94, 95⟩), 10⟩ :=
  C10_sl_before_ts .LONG 5 1 (1/2) 100 10 ⟨0, 0, some 101⟩ ⟨77, 100, 102, 94, 95⟩ 101
    rfl (by norm_num [ts_cross]) (by norm_num [low_pnl_of])

/-- Claim C3: when the closing candle hits both the SL and the TP level (no
earlier candle hits either, for the trade's direction), the result routes
through the seeded tie-break and is exactly one of the two outcomes —
`stop_loss` at `sl_price` with `pnl = -sl_percent`, or `take_profit` at
`tp_price` with `pnl = +tp_percent` — never both and never neither. -/
theorem C3_tiebreak_exactly_one (coin : ℕ → Bool) (config : V3Config) (direction : Dir)
    (entry_price actual_entry_time : ℚ) (scoring_history_id : ℕ)
    (pre rest : List HCandle) (c : HCandle)
    (he : 0 < entry_price)
    (hpre : ∀ c' ∈ pre,
      ¬ v3_sl_hit direction (v3_sl_price direction entry_price config.sl_percent) c' ∧
      ¬ v3_tp_hit direction (v3_tp_price direction entry_price config.tp_percent) c')
    (hsl : v3_sl_hit direction (v3_sl_price direction entry_price config.sl_percent) c)
    (htp : v3_tp_hit direction (v3_tp_price direction entry_price config.tp_percent) c)
    (r : TradeResult)
    (hr : r = calculate_trade_result coin config direction entry_price
      (pre ++ c :: rest) actual_entry_time scoring_history_id) :
    ((r.close_reason = .stop_loss ∧
        r.close_price = v3_sl_price direction entry_price config.sl_percent ∧
        r.pnl_percent = -config.sl_percent) ∨
      (r.close_reason = .take_profit ∧
        r.close_price = v3_tp_price direction entry_price config.tp_percent ∧
        r.pnl_percent = config.tp_percent)) ∧
    ¬(r.close_reason = .stop_loss ∧ r.close_reason = .take_profit) := by
  subst hr
  have hfold : (List.foldl
      (calcStep (coin (get_signal_seed scoring_history_id)) direction actual_entry_time
        (v3_tp_price direction entry_price config.tp_percent)
        (v3_sl_price direction entry_price config.sl_percent))
      ⟨entry_price, entry_price, 0, 0, none, entry_price, 0⟩ (pre ++ c :: rest)).closeInfo =
      some (if coin (get_signal_seed scoring_history_id) = true
        then (⟨.stop_loss, some false, v3_sl_price direction entry_price config.sl_percent,
          c.timestamp, (c.timestamp - actual_entry_time) / 3600⟩ : CloseInfo)
        else ⟨.take_profit, some true, v3_tp_price direction entry_price config.tp_percent,
          c.timestamp, (c.timestamp - actual_entry_time) / 3600⟩) := by
    rw [List.foldl_append, List.foldl_cons]
    refine foldl_closeInfo_some _ _ _ _ _ rest _ _ ?_
    rw [(calcStep_fields _ _ _ _ _ _ _).1,
      foldl_closeInfo_none _ _ _ _ _ pre hpre _ rfl]
    simp [v3_close_update, hsl, htp]
  constructor
  · simp only [calculate_trade_result]
    rw [hfold]
    cases hC : coin (get_signal_seed scoring_history_id)
    · right
      simp only [Bool.false_eq_true, if_false]
      refine ⟨by trivial, by trivial, ?_⟩
      cases direction
      · simp only [v3_tp_price]
        field_simp
        ring
      · simp only [v3_tp_price]
        field_simp
        ring
    · left
      simp only [if_true]
      refine ⟨by trivial, by trivial, ?_⟩
      cases direction
      · simp only [v3_sl_price]
        field_simp
        ring
      · simp only [v3_sl_price]
        field_simp
        ring
  · rintro ⟨h1, h2⟩
    rw [h1] at h2
    exact CloseReason.noConfusion h2

/-- Witness for C3: entry 100, LONG, sl = tp = 3%, candle low 96 / high
104 hits both levels. -/
theorem C3_tiebreak_exactly_one_witness :
    (((calculate_trade_result (fun _ => true) ⟨3, 3, 100, 10, 48⟩ .LONG 100
          ([] ++ ⟨300, 100, 104, 96⟩ :: []) 0 1).close_reason = .stop_loss ∧
        (calculate_trade_result (fun _ => true) ⟨3, 3, 100, 10, 48⟩ .LONG 100
          ([] ++ ⟨300, 100, 104, 96⟩ :: []) 0 1).close_price = v3_sl_price .LONG 100 3 ∧
        (calculate_trade_result (fun _ => true) ⟨3, 3, 100, 10, 48⟩ .LONG 100
          ([] ++ ⟨300, 100, 104, 96⟩ :: []) 0 1).pnl_percent = -3) ∨
      ((calculate_trade_result (fun _ => true) ⟨3, 3, 100, 10, 48⟩ .LONG 100
          ([] ++ ⟨300, 100, 104, 96⟩ :: []) 0 1).close_reason = .take_profit ∧
        (calculate_trade_result (fun _ => true) ⟨3, 3, 100, 10, 48⟩ .LONG 100
          ([] ++ ⟨300, 100, 104, 96⟩ :: []) 0 1).close_price = v3_tp_price .LONG 100 3 ∧
        (calculate_trade_result (fun _ => true) ⟨3, 3, 100, 10, 48⟩ .LONG 100
          ([] ++ ⟨300, 100, 104, 96⟩ :: []) 0 1).pnl_percent = 3)) ∧
    ¬((calculate_trade_result (fun _ => true) ⟨3, 3, 100, 10, 48⟩ .LONG 100
          ([] ++ ⟨300, 100, 104, 96⟩ :: []) 0 1).close_reason = .stop_loss ∧
      (calculate_trade_result (fun _ => true) ⟨3, 3, 100, 10, 48⟩ .LONG 100
          ([] ++ ⟨300, 100, 104, 96⟩ :: []) 0 1).close_reason = .take_profit) :=
  C3_tiebreak_exactly_one (fun _ => true) ⟨3, 3, 100, 10, 48⟩ .LONG 100 0 1 [] []
    ⟨300, 100, 104, 96⟩ (by norm_num) (by simp)
    (by norm_num [v3_sl_hit, v3_sl_price]) (by norm_num [v3_tp_hit, v3_tp_price]) _ rfl

/-- Pointwise drawdown comparison: measuring the same giveback from a
higher peak yields a larger percentage. -/
lemma naive_drawdown_le (e p l : ℚ) (he : 0 < e) (hep : e ≤ p) (hl : 0 ≤ l) :
    (e - l) / e ≤ (p - l) / p := by
  have hp : 0 < p := lt_of_lt_of_le he hep
  rw [div_le_div_iff₀ he hp]
  nlinarith [mul_nonneg hl (sub_nonneg.mpr hep)]

/-- Loop invariant for the LONG running-peak drawdown: the running best
stays above entry, the reported drawdown stays non-negative and dominates
the naive entry-to-minimum drawdown. -/
lemma foldl_drawdown_invariant_long (hit_sl_first : Bool)
    (actual_entry_time tp_price sl_price entry_price : ℚ) (he : 0 < entry_price)
    (l : List HCandle) (hpos : ∀ c ∈ l, 0 < c.low_price) :
    ∀ st : CalcState,
      entry_price ≤ st.running_best_price →
      0 ≤ st.max_drawdown_from_peak →
      (entry_price - st.absolute_min_price) / entry_price * 100 ≤
        st.max_drawdown_from_peak →
      entry_price ≤ (l.foldl (calcStep hit_sl_first .LONG actual_entry_time tp_price
        sl_price) st).running_best_price ∧
      0 ≤ (l.foldl (calcStep hit_sl_first .LONG actual_entry_time tp_price
        sl_price) st).max_drawdown_from_peak ∧
      (entry_price - (l.foldl (calcStep hit_sl_first .LONG actual_entry_time tp_price
          sl_price) st).absolute_min_price) / entry_price * 100 ≤
        (l.foldl (calcStep hit_sl_first .LONG actual_entry_time tp_price
          sl_price) st).max_drawdown_from_peak := by
  induction l with
  | nil => intro st h1 h2 h3; exact ⟨h1, h2, h3⟩
  | cons c rest ih =>
    intro st h1 h2 h3
    rw [List.foldl_cons]
    have hc : 0 < c.low_price := hpos c (List.mem_cons_self _ _)
    obtain ⟨-, hrb, hdd, hmin, -⟩ :=
      calcStep_fields hit_sl_first .LONG actual_entry_time tp_price sl_price st c
    have hrb' : entry_price ≤ v3_peak_update .LONG st.running_best_price c := by
      simp only [v3_peak_update]
      split_ifs with h
      · linarith
      · linarith
    have hrbpos : 0 < v3_peak_update .LONG st.running_best_price c :=
      lt_of_lt_of_le he hrb'
    have hddmono : st.max_drawdown_from_peak ≤
        v3_drawdown_update .LONG (v3_peak_update .LONG st.running_best_price c)
          st.max_drawdown_from_peak c := by
      simp only [v3_drawdown_update]
      split_ifs <;> linarith
    have hcur : (v3_peak_update .LONG st.running_best_price c - c.low_price) /
          v3_peak_update .LONG st.running_best_price c * 100 ≤
        v3_drawdown_update .LONG (v3_peak_update .LONG st.running_best_price c)
          st.max_drawdown_from_peak c := by
      simp only [v3_drawdown_update]
      rw [if_pos hrbpos]
      split_ifs with h
      · linarith
      · linarith
    refine ih (fun c' h' => hpos c' (List.mem_cons_of_mem _ h')) _ ?_ ?_ ?_
    · rw [hrb]
      exact hrb'
    · rw [hdd]
      exact le_trans h2 hddmono
    · rw [hdd, hmin]
      split_ifs with hlow
      · calc (entry_price - c.low_price) / entry_price * 100
            ≤ (v3_peak_update .LONG st.running_best_price c - c.low_price) /
                v3_peak_update .LONG st.running_best_price c * 100 := by
              have := naive_drawdown_le entry_price
                (v3_peak_update .LONG st.running_best_price c) c.low_price he hrb'
                (le_of_lt hc)
              nlinarith
          _ ≤ _ := hcur
      · exact le_trans h3 hddmono

/-- Claim C8: for a LONG trade over a positive-price history the
running-peak drawdown reported by `calculate_trade_result` dominates the
naive entry-to-low drawdown; the first conjunct is the pointwise fact
`(e-l)/e ≤ (p-l)/p` for a peak `p ≥ e > 0` and a low `l ≥ 0`. -/
theorem C8_drawdown_monotonicity (coin : ℕ → Bool) (config : V3Config)
    (entry_price actual_entry_time : ℚ) (history : List HCandle) (id : ℕ)
    (he : 0 < entry_price) (hpos : ∀ c ∈ history, 0 < c.low_price) :
    (∀ e p l : ℚ, 0 < e → e ≤ p → 0 ≤ l → (e - l) / e ≤ (p - l) / p) ∧
    (entry_price - (calculate_trade_result coin config .LONG entry_price history
        actual_entry_time id).absolute_min_price) / entry_price * 100 ≤
      (calculate_trade_result coin config .LONG entry_price history
        actual_entry_time id).max_drawdown_percent := by
  refine ⟨fun e p l he' hep hl => naive_drawdown_le e p l he' hep hl, ?_⟩
  have h := foldl_drawdown_invariant_long (coin (get_signal_seed id)) actual_entry_time
    (v3_tp_price .LONG entry_price config.tp_percent)
    (v3_sl_price .LONG entry_price config.sl_percent) entry_price he history hpos
    ⟨entry_price, entry_price, 0, 0, none, entry_price, 0⟩ le_rfl le_rfl (by simp)
  simp only [calculate_trade_result]
  exact h.2.2

/-- Witness for C8 on a one-candle history. -/
theorem C8_drawdown_monotonicity_witness :
    (∀ e p l : ℚ, 0 < e → e ≤ p → 0 ≤ l → (e - l) / e ≤ (p - l) / p) ∧
    ((100 : ℚ) - (calculate_trade_result (fun _ => true) ⟨3, 3, 100, 10, 48⟩ .LONG 100
        [⟨300, 100, 102, 99⟩] 0 1).absolute_min_price) / 100 * 100 ≤
      (calculate_trade_result (fun _ => true) ⟨3, 3, 100, 10, 48⟩ .LONG 100
        [⟨300, 100, 102, 99⟩] 0 1).max_drawdown_percent :=
  C8_drawdown_monotonicity (fun _ => true) ⟨3, 3, 100, 10, 48⟩ 100 0
    [⟨300, 100, 102, 99⟩] 1 (by norm_num) (by norm_num)

/-- One flat candle falls through every exit check: the engine's final
fallback `_check_timeout_exit` call returns `None` (minutes held < 1200)
and `simulate_trade` propagates it. -/
lemma simulate_trade_flat_none :
    simulate_trade [flatCandle] .LONG 5 1 (1/2) = none := by
  norm_num [simulate_trade, simLoop, stepCandle, check_timeout_exit, flatCandle,
    high_pnl_of, low_pnl_of, close_pnl_of, ts_cross, ts_initial_trigger]

/-- Claim C1 (code bug): `simulate_trade` does not always return a
terminal exit: on a non-empty candle list exhausted before the first
timeout checkpoint (here a single flat candle) the fall-through
`_check_timeout_exit` call returns `None`, which `simulate_trade`
propagates instead of forcing a `TIMEOUT` close at the last close. -/
theorem C1_no_terminal_exit :
    simulate_trade [flatCandle] .LONG 5 1 (1/2) = none ∧ ([flatCandle] : List Candle) ≠ [] :=
  ⟨simulate_trade_flat_none, by simp⟩

/-- Claim C9 (code bug): `simulate_batch` drops a parameter combination when
`simulate_trade` returns `None` — with one combination and a single flat
candle the output has no rows, not one row per combination.  The sentinel
path of `analyze_signal_both_directions` (last conjunct) does yield
exactly one recorded outcome per direction when the entry price is
missing. -/
theorem C9_dropped_row :
    simulate_batch 1 .LONG [flatCandle] [(5, 1, 1/2)] = [] ∧
    ([(5, 1, 1/2)] : List (ℚ × ℚ × ℚ)).length = 1 ∧
    (∀ (coin : ℕ → Bool) (config : V3Config) (history : List HCandle) (id : ℕ),
      analyze_signal_both_directions coin config none none history id =
        (.inl (create_no_data_result .LONG .no_entry_price),
         .inl (create_no_data_result .SHORT .no_entry_price))) := by
  refine ⟨?_, rfl, fun coin config history id => rfl⟩
  simp only [simulate_batch]
  rw [simulate_trade_flat_none]

end WinRate
